import Mathlib

/-!
Verification development for the apiflow reverse proxy (Rust, Tauri).

The request-processing pipeline of `src-tauri/src/lib.rs`, together with the
helper functions of `src-tauri/src/helpers.rs` and the log/stats maintenance of
`src-tauri/src/logging.rs`, is shallowly embedded below.

Modelling conventions:
* Rust `String`/`&str` values are Lean `String`s; all character-level
  operations (`trim`, `to_lowercase`, `starts_with`, `contains`,
  `trim_end_matches`, `strip_prefix`) are defined over `String.data`
  (the character list) so that every definition evaluates in the kernel.
* Byte slices (`&[u8]`, `Bytes`) are `List Nat`.
* `http::HeaderMap` is a `List (String × String)`; the `http` crate stores
  header names case-insensitively, which we model by comparing lowered names.
* Wall-clock readings (`Instant`, `Local::now`) are abstracted to `0`/`""`;
  no claim mentions concrete times.
* The outbound dispatch (`reqwest`) is abstracted by an oracle
  `Nat → Nat → DispatchOutcome` giving, per (upstream index, attempt index),
  the outcome the network would produce.
* Shared-state side effects (log upserts, stats updates) are recorded as an
  ordered event list, in exactly the order the Rust code performs them.
-/

/-- Lowered character list of a string, modelling Rust `str::to_lowercase` /
`eq_ignore_ascii_case` comparisons on header names. -/
def lowerData (s : String) : List Char :=
  s.data.map Char.toLower

/-- Rust `str::contains(pat)`: substring containment. -/
def containsSub (s pat : String) : Bool :=
  decide (pat.data <:+: s.data)

/-- Rust `str::trim` (drop whitespace on both ends). -/
def trimStr (s : String) : String :=
  ⟨((s.data.dropWhile Char.isWhitespace).reverse.dropWhile Char.isWhitespace).reverse⟩

/-- Rust `str::is_empty`. -/
def strIsEmpty (s : String) : Bool :=
  s.data.isEmpty

-- ---------------------------------------------------------------------------
-- Data model (src-tauri/src/lib.rs, struct definitions)
-- ---------------------------------------------------------------------------

/-- `UpstreamEntry` from lib.rs. -/
structure UpstreamEntry where
  id : String
  label : Option String
  upstream_base : String
  api_key : Option String
  priority : Nat
  enabled : Bool
deriving Repr, DecidableEq

/-- `ServiceConfig` from lib.rs. -/
structure ServiceConfig where
  id : String
  name : String
  base_path : String
  enabled : Bool
  upstreams : List UpstreamEntry
deriving Repr, DecidableEq

/-- `ProxyConfig` from lib.rs. -/
structure ProxyConfig where
  listen_port : Nat
  global_key : Option String
  proxy_url : Option String
  fallback_retries : Nat
  services : List ServiceConfig
deriving Repr, DecidableEq

/-- `ProxyLogEntry` from lib.rs.  Body fields hold the raw bytes that the Rust
code passes to `String::from_utf8_lossy` (for valid input the decoded string
occupies exactly these bytes). -/
structure ProxyLogEntry where
  id : String
  timestamp : String
  method : String
  path : String
  upstream_url : String
  listen_port : Nat
  route_key : Option String
  upstream_label : Option String
  service_name : Option String
  base_path : Option String
  status : Option Nat
  duration_ms : Nat
  error : Option String
  retry_action : Option String
  request_headers : Option String
  request_body : Option (List Nat)
  response_headers : Option String
  response_body : Option (List Nat)
  client_ip : Option String
  is_streaming : Bool
deriving Repr, DecidableEq

/-- `UpstreamStats` from lib.rs. -/
structure UpstreamStats where
  upstream_id : String
  upstream_label : Option String
  total_requests : Nat
  success_count : Nat
  error_count : Nat
  total_duration_ms : Nat
deriving Repr, DecidableEq

-- ---------------------------------------------------------------------------
-- helpers.rs
-- ---------------------------------------------------------------------------

/-- `strip_base_path` from helpers.rs: `path.strip_prefix(base).unwrap_or(path)`
after the special case `base == "/"`. -/
def strip_base_path (path base : String) : String :=
  if base = "/" then path
  else if base.data.isPrefixOf path.data then ⟨path.data.drop base.data.length⟩
  else path

/-- `build_upstream_url` from helpers.rs, on character lists.
`ends_with('/')` is `getLast? = some '/'`, `starts_with('/')` is
`head? = some '/'`, `push('/')` appends, `pop()` is `dropLast`. -/
def build_upstream_url (base path_and_query : List Char) : List Char :=
  let result := base
  let result :=
    if ¬ result.getLast? = some '/' ∧ ¬ path_and_query.head? = some '/' then
      result ++ ['/']
    else result
  let result :=
    if result.getLast? = some '/' ∧ path_and_query.head? = some '/' then
      result.dropLast
    else result
  result ++ path_and_query

/-- `build_upstream_url` on `String`s (the Rust signature). -/
def build_upstream_url_str (base path_and_query : String) : String :=
  ⟨build_upstream_url base.data path_and_query.data⟩

/-- Rust `str::trim_end_matches('/')` as used on `upstream_base` during config
normalization in `start_proxy` / `reload_proxy` (lib.rs): removes every
trailing `'/'`. -/
def trim_end_matches_slash (s : List Char) : List Char :=
  (s.reverse.dropWhile (· == '/')).reverse

/-- `format_headers` from helpers.rs, before rendering: keep the pairs whose
lowered name is neither `authorization` nor `x-proxy-key`. -/
def format_header_pairs (headers : List (String × String)) : List (String × String) :=
  headers.filter fun p =>
    ¬ lowerData p.1 = "authorization".data ∧ ¬ lowerData p.1 = "x-proxy-key".data

/-- Render `"name: value"` lines joined by `"\n"` (the `map`/`join` of
`format_headers` and of `prepare_upstream_request`'s `headers_str`). -/
def render_header_lines (pairs : List (String × String)) : String :=
  match pairs with
  | [] => ""
  | p :: rest =>
    (p.1 ++ ": " ++ p.2) ++ rest.foldl (fun acc q => acc ++ "\n" ++ q.1 ++ ": " ++ q.2) ""

/-- `format_headers` from helpers.rs. -/
def format_headers (headers : List (String × String)) : String :=
  render_header_lines (format_header_pairs headers)

/-- `truncate_body` from helpers.rs.  The Rust body is
`if bytes.is_empty() { None } else { Some(String::from_utf8_lossy(bytes).into_owned()) }`;
note that the `_max_len` parameter is never used.  We keep the bytes that the
lossy decoding reads. -/
def truncate_body (bytes : List Nat) (_max_len : Nat) : Option (List Nat) :=
  if bytes.isEmpty then none else some bytes

/-- First header value for a (case-insensitive) name: `HeaderMap::get`. -/
def header_get (headers : List (String × String)) (name : String) : Option String :=
  (headers.find? fun p => lowerData p.1 == name.data).map Prod.snd

/-- `extract_proxy_key` from helpers.rs.  `x-proxy-key` (trimmed, non-empty)
wins; otherwise `Authorization`, with a `Bearer ` prefix stripped when present
(an empty remainder after `Bearer ` yields `None`, because the Rust
`else`-branch belongs to the `if let`). -/
def extract_proxy_key (headers : List (String × String)) : Option String :=
  let from_xpk : Option String :=
    match header_get headers "x-proxy-key" with
    | some v =>
      let t := trimStr v
      if strIsEmpty t then none else some t
    | none => none
  match from_xpk with
  | some k => some k
  | none =>
    match header_get headers "authorization" with
    | some v =>
      let t := trimStr v
      if "Bearer ".data.isPrefixOf t.data then
        let rest : String := ⟨t.data.drop 7⟩
        if strIsEmpty rest then none else some rest
      else if strIsEmpty t then none else some t
    | none => none

-- ---------------------------------------------------------------------------
-- logging.rs
-- ---------------------------------------------------------------------------

/-- `MAX_LOGS` from logging.rs. -/
def MAX_LOGS : Nat := 200

/-- `upsert_log` from logging.rs.  The `VecDeque` is a list whose head is the
front; `push_back` appends, `pop_front` drops the head. -/
def upsert_log (logs : List ProxyLogEntry) (entry : ProxyLogEntry) : List ProxyLogEntry :=
  match logs.findIdx? (fun e => e.id == entry.id) with
  | some pos => logs.set pos entry
  | none =>
    let logs := logs ++ [entry]
    if logs.length > MAX_LOGS then logs.tail else logs

/-- The per-entry mutation of `update_stats` from logging.rs (counter bumps
followed by the lazy label back-fill). -/
def bump_stats (s : UpstreamStats) (upstream_label : Option String)
    (duration_ms : Nat) (success : Bool) : UpstreamStats :=
  let s := { s with
    total_requests := s.total_requests + 1,
    total_duration_ms := s.total_duration_ms + duration_ms }
  let s :=
    if success then { s with success_count := s.success_count + 1 }
    else { s with error_count := s.error_count + 1 }
  if s.upstream_label.isNone ∧ upstream_label.isSome then
    { s with upstream_label := upstream_label }
  else s

/-- `update_stats` from logging.rs on an association list modelling the
`HashMap<String, UpstreamStats>` (`entry(..).or_insert_with(..)` then bump). -/
def update_stats (stats : List (String × UpstreamStats)) (upstream_id : String)
    (upstream_label : Option String) (duration_ms : Nat) (success : Bool) :
    List (String × UpstreamStats) :=
  match stats with
  | [] =>
    [(upstream_id,
      bump_stats
        ⟨upstream_id, upstream_label, 0, 0, 0, 0⟩ upstream_label duration_ms success)]
  | (k, s) :: rest =>
    if k == upstream_id then
      (k, bump_stats s upstream_label duration_ms success) :: rest
    else
      (k, s) :: update_stats rest upstream_id upstream_label duration_ms success

-- ---------------------------------------------------------------------------
-- lib.rs: auth gate, router
-- ---------------------------------------------------------------------------

/-- `check_auth` from lib.rs: when a `global_key` is configured, the extracted
key must equal it verbatim, else a `(401, "未授权")` rejection. -/
def check_auth (config : ProxyConfig) (headers : List (String × String)) :
    Option (Nat × String) :=
  match config.global_key with
  | some global_key =>
    if extract_proxy_key headers = some global_key then none
    else some (401, "未授权")
  | none => none

/-- `should_retry_status` from lib.rs: any 5xx, or 429, or 408. -/
def should_retry_status (status : Nat) : Bool :=
  (500 ≤ status ∧ status ≤ 599) ∨ status = 429 ∨ status = 408

/-- Stable insertion (ascending by key): the inserted element goes before the
first element with a key `≥` its own; later equal keys stay behind it.
Extensionally equal to Rust's stable `sort_by_key`. -/
def insert_asc {α : Type} (key : α → Nat) (a : α) : List α → List α
  | [] => [a]
  | y :: ys => if key a ≤ key y then a :: y :: ys else y :: insert_asc key a ys

/-- Stable ascending sort by a `Nat` key, modelling `Vec::sort_by_key`. -/
def sort_asc {α : Type} (key : α → Nat) : List α → List α
  | [] => []
  | a :: l => insert_asc key a (sort_asc key l)

/-- Stable insertion (descending by key). -/
def insert_desc {α : Type} (key : α → Nat) (a : α) : List α → List α
  | [] => [a]
  | y :: ys => if key y ≤ key a then a :: y :: ys else y :: insert_desc key a ys

/-- Stable descending sort by a `Nat` key, modelling
`Vec::sort_by_key(|x| Reverse(key x))`. -/
def sort_desc {α : Type} (key : α → Nat) : List α → List α
  | [] => []
  | a :: l => insert_desc key a (sort_desc key l)

/-- The candidate filter inside `select_service` (lib.rs): enabled services
whose `base_path` is `"/"` or a byte prefix of the request path. -/
def candidate_services (config : ProxyConfig) (path : String) : List ServiceConfig :=
  (config.services.filter (·.enabled)).filter fun svc =>
    svc.base_path == "/" || svc.base_path.data.isPrefixOf path.data

/-- `select_service` from lib.rs: filter enabled, filter matching, stable sort
by descending `base_path` length, take the first. -/
def select_service (config : ProxyConfig) (path : String) : Option ServiceConfig :=
  let enabled := config.services.filter (·.enabled)
  if enabled.isEmpty then none
  else (sort_desc (fun svc => svc.base_path.data.length) (candidate_services config path)).head?

/-- `enabled_upstreams_sorted` from lib.rs. -/
def enabled_upstreams_sorted (upstreams : List UpstreamEntry) : List UpstreamEntry :=
  sort_asc (·.priority) (upstreams.filter (·.enabled))

/-- `ResolvedUpstream` from lib.rs. -/
structure ResolvedUpstream where
  upstream_url : String
  upstream_id : String
  upstream_label : Option String
  api_key : Option String
deriving Repr, DecidableEq

/-- `RouteInfo` from lib.rs. -/
structure RouteInfo where
  service_name : String
  service_base : String
  upstreams : List ResolvedUpstream
deriving Repr, DecidableEq

/-- `resolve_route` from lib.rs. -/
def resolve_route (config : ProxyConfig) (path : String) : Option RouteInfo :=
  match select_service config path with
  | none => none
  | some service =>
    let trimmed_path := strip_base_path path service.base_path
    let enabled := enabled_upstreams_sorted service.upstreams
    if enabled.isEmpty then none
    else some
      { service_name := service.name
        service_base := service.base_path
        upstreams := enabled.map fun u =>
          { upstream_url := build_upstream_url_str u.upstream_base trimmed_path
            upstream_id := u.id
            upstream_label := u.label
            api_key := u.api_key } }

-- ---------------------------------------------------------------------------
-- lib.rs: prepare_upstream_request (header rewriting)
-- ---------------------------------------------------------------------------

/-- `uses_goog_api_key` detection in `prepare_upstream_request`. -/
def uses_goog_api_key (headers : List (String × String)) : Bool :=
  headers.any fun p => lowerData p.1 == "x-goog-api-key".data

/-- The captured client `Authorization` value (last occurrence wins, as the
Rust loop overwrites). -/
def captured_auth (headers : List (String × String)) : Option String :=
  headers.foldl
    (fun acc p => if lowerData p.1 == "authorization".data then some p.2 else acc) none

/-- The captured client `x-goog-api-key` value (last occurrence wins). -/
def captured_goog (headers : List (String × String)) : Option String :=
  headers.foldl
    (fun acc p => if lowerData p.1 == "x-goog-api-key".data then some p.2 else acc) none

/-- The headers forwarded verbatim by the loop in `prepare_upstream_request`:
everything except `Host`, `Content-Length`, `Authorization`, `x-goog-api-key`
and `x-proxy-key`. -/
def forwarded_headers (headers : List (String × String)) : List (String × String) :=
  headers.filter fun p =>
    ¬ lowerData p.1 = "host".data ∧
    ¬ lowerData p.1 = "content-length".data ∧
    ¬ lowerData p.1 = "authorization".data ∧
    ¬ lowerData p.1 = "x-goog-api-key".data ∧
    ¬ lowerData p.1 = "x-proxy-key".data

/-- The `upstream_headers` vector built by `prepare_upstream_request`
(lib.rs): forwarded pairs in order, then the injected credential —
the configured `api_key` (as `x-goog-api-key` when the client used the Google
scheme, else as `Authorization: Bearer …`), or, with no configured key, the
captured client credential headers re-emitted. -/
def prepare_upstream_headers (headers : List (String × String))
    (api_key : Option String) : List (String × String) :=
  forwarded_headers headers ++
    match api_key with
    | some key =>
      if uses_goog_api_key headers then [("x-goog-api-key", key)]
      else [("authorization", "Bearer " ++ key)]
    | none =>
      (match captured_goog headers with
       | some v => [("x-goog-api-key", v)]
       | none => []) ++
      (match captured_auth headers with
       | some v => [("authorization", v)]
       | none => [])

/-- The `headers_str` rendered by `prepare_upstream_request` for the log. -/
def prepare_upstream_headers_str (headers : List (String × String))
    (api_key : Option String) : String :=
  render_header_lines (prepare_upstream_headers headers api_key)

-- ---------------------------------------------------------------------------
-- lib.rs: response classification
-- ---------------------------------------------------------------------------

/-- The streaming classification in `handle_upstream_response` (lib.rs):
`content_type.contains(..)` on the *raw* header value — a case-sensitive
substring match. -/
def is_streaming_content_type (content_type : String) : Bool :=
  containsSub content_type "text/event-stream" ||
  containsSub content_type "application/x-ndjson" ||
  containsSub content_type "text/plain"

/-- Modelled from the spec: §4.6 classifies by a "case-insensitive substring
match on lowered media type" — the same three patterns sought in the lowered
`Content-Type`.  (The source has no lowering; this definition exists to be
compared with `is_streaming_content_type`.) -/
def is_streaming_content_type_spec (content_type : String) : Bool :=
  decide ("text/event-stream".data <:+: content_type.data.map Char.toLower) ||
  decide ("application/x-ndjson".data <:+: content_type.data.map Char.toLower) ||
  decide ("text/plain".data <:+: content_type.data.map Char.toLower)

-- ---------------------------------------------------------------------------
-- lib.rs: attempt engine (proxy_handler lines 581-714) and response handlers
-- ---------------------------------------------------------------------------

/-- `MAX_FALLBACK_RETRIES` from lib.rs. -/
def MAX_FALLBACK_RETRIES : Nat := 10

/-- One outbound dispatch outcome, abstracting `reqwest`: either an HTTP
response (status, response headers, the buffered body read — `none` when
`resp.bytes()` fails — and the chunk sequence the streaming path would see),
or a transport error. -/
inductive DispatchOutcome where
  | resp (status : Nat) (resp_headers : List (String × String))
      (buffered_read : Option (List Nat)) (stream_chunks : List (List Nat))
  | transport_error (msg : String)

/-- A shared-state mutation performed by the pipeline, in program order. -/
inductive ProxyEvent where
  | log_upsert (entry : ProxyLogEntry)
  | stats_update (upstream_id : String) (upstream_label : Option String)
      (duration_ms : Nat) (success : Bool)
deriving Repr, DecidableEq

/-- UTF-8 bytes of the literal `"[流式响应]"` used by `handle_streaming_body`
when the captured stream is empty. -/
def stream_placeholder_bytes : List Nat :=
  [91, 230, 181, 129, 229, 188, 143, 229, 147, 141, 229, 186, 148, 93]

/-- `Vec::join("; ")` on the accumulated attempt errors. -/
def join_errors : List String → String
  | [] => ""
  | e :: rest => rest.foldl (fun acc s => acc ++ "; " ++ s) e

/-- `handle_regular_body` from lib.rs: await the full body (`none` = read
failure: log, return 502, *no stats update*); otherwise populate
`response_body` (and `error` for status ≥ 400 — the 2000-char body snippet is
abstracted out of the error text), update stats, upsert, forward the status. -/
def handle_regular_body (entry : ProxyLogEntry) (status : Nat)
    (buffered_read : Option (List Nat)) (upstream_id : String)
    (upstream_label : Option String) (events : List ProxyEvent) :
    Nat × List ProxyEvent :=
  match buffered_read with
  | none =>
    let entry := { entry with error := some "读取上游响应失败", duration_ms := 0 }
    (502, events ++ [.log_upsert entry])
  | some body_bytes =>
    let entry := { entry with
      duration_ms := 0,
      response_body := truncate_body body_bytes 8000 }
    let entry :=
      if 400 ≤ status ∧ status ≤ 599 then
        { entry with error := some ("上游返回 " ++ toString status) }
      else entry
    (status,
      events ++
        [.stats_update upstream_id upstream_label 0 (¬ (400 ≤ status ∧ status ≤ 599)),
         .log_upsert entry])

/-- `handle_streaming_body` from lib.rs: the spawned task collects every chunk
into a buffer, then sets `response_body` (the placeholder when the buffer is
empty, else `truncate_body(.., 64000)`), upserts the final entry and updates
stats.  The client is handed the upstream status immediately. -/
def handle_streaming_body (entry : ProxyLogEntry) (status : Nat)
    (stream_chunks : List (List Nat)) (upstream_id : String)
    (upstream_label : Option String) (events : List ProxyEvent) :
    Nat × List ProxyEvent :=
  let collected := stream_chunks.foldl (· ++ ·) []
  let response_body :=
    if collected.isEmpty then some stream_placeholder_bytes
    else truncate_body collected 64000
  let final_entry := { entry with response_body := response_body, duration_ms := 0 }
  (status,
    events ++
      [.log_upsert final_entry,
       .stats_update upstream_id upstream_label 0 (¬ (400 ≤ status ∧ status ≤ 599))])

/-- `handle_upstream_response` from lib.rs: stamp status and rendered response
headers, read the `Content-Type`, classify, and branch. -/
def handle_upstream_response (entry : ProxyLogEntry) (status : Nat)
    (resp_headers : List (String × String)) (buffered_read : Option (List Nat))
    (stream_chunks : List (List Nat)) (upstream_id : String)
    (upstream_label : Option String) (events : List ProxyEvent) :
    Nat × List ProxyEvent :=
  let entry := { entry with
    status := some status,
    response_headers := some (format_headers resp_headers) }
  let content_type := (header_get resp_headers "content-type").getD ""
  let is_streaming := is_streaming_content_type content_type
  let entry := { entry with is_streaming := is_streaming }
  if is_streaming then
    handle_streaming_body entry status stream_chunks upstream_id upstream_label events
  else
    handle_regular_body entry status buffered_read upstream_id upstream_label events

/-- The inner attempt loop of `proxy_handler` (`for attempt in
0..=retries_per_upstream`, lib.rs lines 587-710) for one upstream.  The
attempt indices still to run are passed as a list (`List.range
(retries_per_upstream + 1)` at the call site); `continue` recurses on the
tail, falling off the loop end or `break` yields `Sum.inr` with the state the
outer loop continues with, and `return` yields `Sum.inl` with the client
status and the event trace.  `rest_len` is the number of upstreams after the
current one, so `0 < rest_len` is `up_idx + 1 < upstreams.len()`. -/
def engine_attempts (oracle : Nat → Nat → DispatchOutcome)
    (headers : List (String × String)) (retries_per_upstream : Nat)
    (allow_fallback : Bool) (up_idx : Nat) (u : ResolvedUpstream)
    (rest_len : Nat) :
    List Nat → ProxyLogEntry → List String → List ProxyEvent →
    (Nat × List ProxyEvent) ⊕ (ProxyLogEntry × List String × List ProxyEvent)
  | [], entry, attempt_errors, events => .inr (entry, attempt_errors, events)
  | attempt :: more_attempts, entry, attempt_errors, events =>
    let entry := { entry with
      upstream_url := u.upstream_url,
      route_key := u.upstream_label,
      upstream_label := u.upstream_label }
    let entry := { entry with
      request_headers := some (prepare_upstream_headers_str headers u.api_key) }
    let events := events ++ [.log_upsert entry]
    match oracle up_idx attempt with
    | .resp status resp_headers buffered_read stream_chunks =>
      if should_retry_status status ∧ attempt < retries_per_upstream then
        let failed_entry := { entry with
          id := entry.id ++ "-" ++ toString (up_idx + 1) ++ "-" ++ toString (attempt + 1),
          status := some status,
          duration_ms := 0,
          error := some ("上游返回 " ++ toString status ++ "，已自动重试"),
          retry_action := some "retry" }
        let events := events ++
          [.log_upsert failed_entry,
           .stats_update u.upstream_id u.upstream_label 0 false]
        let attempt_errors := attempt_errors ++ ["上游返回 " ++ toString status]
        engine_attempts oracle headers retries_per_upstream allow_fallback up_idx u
          rest_len more_attempts entry attempt_errors events
      else
        let entry :=
          if up_idx > 0 then { entry with retry_action := some "fallback" }
          else if attempt > 0 then { entry with retry_action := some "retry" }
          else entry
        .inl (handle_upstream_response entry status resp_headers buffered_read
          stream_chunks u.upstream_id u.upstream_label events)
    | .transport_error msg =>
      let events := events ++
        [.stats_update u.upstream_id u.upstream_label 0 false]
      let has_retry_left := attempt < retries_per_upstream
      let has_next_upstream := allow_fallback ∧ 0 < rest_len
      let failed_entry := { entry with
        id := entry.id ++ "-" ++ toString (up_idx + 1) ++ "-" ++ toString (attempt + 1),
        status := some 502,
        duration_ms := 0,
        error := some
          (if has_retry_left then msg ++ "，已自动重试"
           else if has_next_upstream then msg ++ "，已自动切换上游"
           else msg),
        retry_action :=
          if has_retry_left then some "retry"
          else if has_next_upstream then some "fallback"
          else none }
      let events := events ++ [.log_upsert failed_entry]
      let attempt_errors := attempt_errors ++ [msg]
      if has_retry_left then
        engine_attempts oracle headers retries_per_upstream allow_fallback up_idx u
          rest_len more_attempts entry attempt_errors events
      else if has_next_upstream then
        .inr (entry, attempt_errors, events)
      else
        let entry := { entry with
          error := some ("上游请求失败: " ++ join_errors attempt_errors),
          status := some 502,
          duration_ms := 0 }
        .inl (502, events ++ [.log_upsert entry])

/-- The outer upstream loop of `proxy_handler` (`for (up_idx, upstream) in
upstreams.iter().enumerate()`).  Falling off the end is lib.rs line 713,
`Err(StatusCode::BAD_GATEWAY)` — reachable only with an empty upstream
list. -/
def engine_upstreams (oracle : Nat → Nat → DispatchOutcome)
    (headers : List (String × String)) (retries_per_upstream : Nat)
    (allow_fallback : Bool) :
    List ResolvedUpstream → Nat → ProxyLogEntry → List String → List ProxyEvent →
    Nat × List ProxyEvent
  | [], _, _, _, events => (502, events)
  | u :: rest, up_idx, entry, attempt_errors, events =>
    match engine_attempts oracle headers retries_per_upstream allow_fallback up_idx u
        rest.length (List.range (retries_per_upstream + 1)) entry attempt_errors events with
    | .inl result => result
    | .inr (entry', errors', events') =>
      engine_upstreams oracle headers retries_per_upstream allow_fallback rest
        (up_idx + 1) entry' errors' events'

/-- The retry-budget arithmetic of `proxy_handler` (lib.rs lines 581-583)
followed by the attempt loops. -/
def run_attempt_engine (oracle : Nat → Nat → DispatchOutcome)
    (headers : List (String × String)) (fallback_retries : Nat)
    (upstreams : List ResolvedUpstream) (entry : ProxyLogEntry) :
    Nat × List ProxyEvent :=
  let allowed_retries := min fallback_retries MAX_FALLBACK_RETRIES
  let retries_per_upstream := allowed_retries - 1
  let allow_fallback := allowed_retries ≥ 1
  engine_upstreams oracle headers retries_per_upstream allow_fallback upstreams 0 entry [] []

/-- `proxy_handler` from lib.rs: auth gate, routing, admission log entry,
inbound body (`none` = body read failure), then the attempt engine.  Returns
the client-facing status and the ordered log/stats event trace.  `request_id`
stands for the generated UUID and `client_ip` for the peer address. -/
def proxy_handler (config : ProxyConfig) (request_id client_ip method path : String)
    (headers : List (String × String)) (body : Option (List Nat))
    (oracle : Nat → Nat → DispatchOutcome) : Nat × List ProxyEvent :=
  match check_auth config headers with
  | some (status, msg) =>
    let entry : ProxyLogEntry :=
      { id := request_id, timestamp := "", method := method, path := path
        upstream_url := "", listen_port := config.listen_port
        route_key := none, upstream_label := none, service_name := none
        base_path := none, status := some status, duration_ms := 0
        error := some msg, retry_action := none, request_headers := none
        request_body := none, response_headers := none, response_body := none
        client_ip := some client_ip, is_streaming := false }
    (status, [.log_upsert entry])
  | none =>
    match resolve_route config path with
    | none => (503, [])
    | some route =>
      let entry : ProxyLogEntry :=
        { id := request_id, timestamp := "", method := method, path := path
          upstream_url := ((route.upstreams.head?).map (·.upstream_url)).getD ""
          listen_port := config.listen_port
          route_key := (route.upstreams.head?).bind (·.upstream_label)
          upstream_label := (route.upstreams.head?).bind (·.upstream_label)
          service_name := some route.service_name
          base_path := some route.service_base
          status := none, duration_ms := 0, error := none, retry_action := none
          request_headers := none, request_body := none, response_headers := none
          response_body := none, client_ip := some client_ip, is_streaming := false }
      match body with
      | none =>
        let entry := { entry with error := some "读取请求体失败", duration_ms := 0 }
        (400, [.log_upsert entry])
      | some body_bytes =>
        let entry := { entry with request_body := truncate_body body_bytes 8000 }
        run_attempt_engine oracle headers config.fallback_retries route.upstreams entry

-- ---------------------------------------------------------------------------
-- Observation helpers over the event trace
-- ---------------------------------------------------------------------------

/-- Replay the log upserts of a trace through `upsert_log`, starting from an
empty ring. -/
def apply_log_events (events : List ProxyEvent) : List ProxyLogEntry :=
  events.foldl
    (fun logs ev =>
      match ev with
      | .log_upsert e => upsert_log logs e
      | _ => logs) []

/-- Replay the stats updates of a trace through `update_stats`, starting from
an empty map. -/
def apply_stats_events (events : List ProxyEvent) : List (String × UpstreamStats) :=
  events.foldl
    (fun stats ev =>
      match ev with
      | .stats_update uid label d s => update_stats stats uid label d s
      | _ => stats) []

/-- The last upserted state of the main log entry (the one carrying the
request id itself, not a derived attempt id). -/
def final_main_entry (id0 : String) (events : List ProxyEvent) : Option ProxyLogEntry :=
  (events.filterMap fun ev =>
    match ev with
    | .log_upsert e => if e.id = id0 then some e else none
    | _ => none).getLast?

/-- Is the event a stats update? -/
def is_stats_event : ProxyEvent → Bool
  | .stats_update _ _ _ _ => true
  | _ => false

/-- Is the event the in-flight upsert a dispatch starts with?  (Those are the
only upserts whose `status` is still absent, so they count the attempts
actually dispatched.) -/
def is_inflight_upsert : ProxyEvent → Bool
  | .log_upsert e => e.status.isNone
  | _ => false

/-- Is the event the final upsert of a buffered response whose body read
failed (the one path that commits an outcome without touching stats)? -/
def is_read_failure_upsert (id0 : String) : ProxyEvent → Bool
  | .log_upsert e => e.id == id0 && e.error == some "读取上游响应失败"
  | _ => false

/-- The earliest element of maximal key: what the head of a *stable*
descending sort returns.  Used to state the C9 selection property. -/
def first_max {α : Type} (key : α → Nat) : List α → Option α
  | [] => none
  | a :: l =>
    match first_max key l with
    | none => some a
    | some b => if key a < key b then some b else some a

-- ---------------------------------------------------------------------------
-- Concrete scenario fixtures (used by the scenario theorems below)
-- ---------------------------------------------------------------------------

/-- Two enabled upstreams `A` (priority 1) and `B` (priority 2) behind one
service at `/api`, `fallback_retries = 1`, no global key. -/
def two_upstream_config : ProxyConfig :=
  { listen_port := 8080, global_key := none, proxy_url := none, fallback_retries := 1,
    services := [
      { id := "svc", name := "S", base_path := "/api", enabled := true,
        upstreams := [
          { id := "A", label := none, upstream_base := "http://a",
            api_key := none, priority := 1, enabled := true },
          { id := "B", label := none, upstream_base := "http://b",
            api_key := none, priority := 2, enabled := true } ] } ] }

/-- One enabled upstream `A` behind one service at `/api`,
`fallback_retries = 2`, no global key. -/
def one_upstream_config : ProxyConfig :=
  { listen_port := 8080, global_key := none, proxy_url := none, fallback_retries := 2,
    services := [
      { id := "svc", name := "S", base_path := "/api", enabled := true,
        upstreams := [
          { id := "A", label := none, upstream_base := "http://a",
            api_key := none, priority := 1, enabled := true } ] } ] }

/-- Dispatch oracle: the first upstream answers HTTP 500, the second HTTP 200
(buffered JSON bodies). -/
def first500_second200 : Nat → Nat → DispatchOutcome := fun up_idx _ =>
  if up_idx = 0 then .resp 500 [("content-type", "application/json")] (some [101]) []
  else .resp 200 [("content-type", "application/json")] (some [111]) []

/-- Dispatch oracle: the first attempt answers HTTP 503, later attempts
HTTP 200 (buffered JSON bodies). -/
def first503_then200 : Nat → Nat → DispatchOutcome := fun _ attempt =>
  if attempt = 0 then .resp 503 [("content-type", "application/json")] (some [101]) []
  else .resp 200 [("content-type", "application/json")] (some [111]) []

/-- Dispatch oracle: HTTP 200 whose buffered body read fails. -/
def body_read_fails : Nat → Nat → DispatchOutcome := fun _ _ =>
  .resp 200 [("content-type", "application/json")] none []

/-- The fallback scenario run of claim C1 (`fallback_retries = 1`, two
upstreams, first answers 500, second would answer 200). -/
def fallback_scenario_run : Nat × List ProxyEvent :=
  proxy_handler two_upstream_config "req" "1.2.3.4" "POST" "/api/x" [] (some [97])
    first500_second200

/-- The retry scenario run of claim C2 (`fallback_retries = 2`, one upstream,
503 then 200). -/
def retry_scenario_run : Nat × List ProxyEvent :=
  proxy_handler one_upstream_config "req" "1.2.3.4" "POST" "/api/x" [] (some [97])
    first503_then200

/-- The body-read-failure scenario run of claim C5. -/
def read_failure_scenario_run : Nat × List ProxyEvent :=
  proxy_handler one_upstream_config "req" "1.2.3.4" "POST" "/api/x" [] (some [97])
    body_read_fails

/-- A config whose two enabled services share the equal-length base path
`/a` (for the C9 stable-selection witness). -/
def equal_prefix_config : ProxyConfig :=
  { listen_port := 8080, global_key := none, proxy_url := none, fallback_retries := 0,
    services := [
      { id := "s1", name := "first", base_path := "/a", enabled := true,
        upstreams := [
          { id := "u1", label := none, upstream_base := "http://one",
            api_key := none, priority := 0, enabled := true } ] },
      { id := "s2", name := "second", base_path := "/a", enabled := true,
        upstreams := [
          { id := "u2", label := none, upstream_base := "http://two",
            api_key := none, priority := 0, enabled := true } ] } ] }

-- ---------------------------------------------------------------------------
-- Helper lemmas
-- ---------------------------------------------------------------------------

/-- An infix is preserved by mapping. -/
theorem isInfix_map {p s : List Char} (f : Char → Char) (h : p <:+: s) :
    p.map f <:+: s.map f := by
  obtain ⟨t, u, rfl⟩ := h
  exact ⟨t.map f, u.map f, by simp⟩

-- ---------------------------------------------------------------------------
-- C10: absent global key accepts every request
-- ---------------------------------------------------------------------------

/-- C10: when the config's `global_key` is absent, `check_auth` never returns
a 401 rejection, regardless of the `x-proxy-key` / `Authorization` headers the
client supplies. -/
theorem check_auth_no_global_key_accepts (config : ProxyConfig)
    (headers : List (String × String)) (h : config.global_key = none) :
    check_auth config headers = none := by
  simp [check_auth, h]

/-- Witness for C10 at a concrete config and adversarial headers. -/
theorem check_auth_no_global_key_accepts_witness :
    two_upstream_config.global_key = none ∧
    check_auth two_upstream_config
      [("x-proxy-key", "bogus"), ("authorization", "Bearer wrong")] = none :=
  ⟨rfl, check_auth_no_global_key_accepts two_upstream_config
    [("x-proxy-key", "bogus"), ("authorization", "Bearer wrong")] rfl⟩

-- ---------------------------------------------------------------------------
-- C7: content-type classification is case-sensitive, not case-insensitive
-- ---------------------------------------------------------------------------

/-- Counterexample to C7: the code's classification is a case-*sensitive*
substring match on the raw `Content-Type`, so `"Text/Plain"` — which the
claim says is classified as streaming — is classified as buffered, while the
spec's case-insensitive rule would classify it as streaming. -/
theorem streaming_classification_counterexample :
    is_streaming_content_type "Text/Plain" = false ∧
    is_streaming_content_type_spec "Text/Plain" = true := by decide

/-- C7 (amended): the classification is a case-sensitive substring match on
the raw media type; every content type the code classifies as streaming is
also streaming under the spec's case-insensitive rule (the converse fails,
see the counterexample). -/
theorem streaming_classification_case_sensitive (content_type : String)
    (h : is_streaming_content_type content_type = true) :
    is_streaming_content_type_spec content_type = true := by
  unfold is_streaming_content_type containsSub at h
  unfold is_streaming_content_type_spec
  rw [Bool.or_eq_true, Bool.or_eq_true] at h
  rw [Bool.or_eq_true, Bool.or_eq_true]
  have e1 : List.map Char.toLower "text/event-stream".data = "text/event-stream".data := by
    decide
  have e2 : List.map Char.toLower "application/x-ndjson".data
      = "application/x-ndjson".data := by decide
  have e3 : List.map Char.toLower "text/plain".data = "text/plain".data := by decide
  rcases h with (h | h) | h
  · rw [decide_eq_true_eq] at h
    refine Or.inl (Or.inl ?_)
    rw [decide_eq_true_eq]
    have h2 := isInfix_map Char.toLower h
    rwa [e1] at h2
  · rw [decide_eq_true_eq] at h
    refine Or.inl (Or.inr ?_)
    rw [decide_eq_true_eq]
    have h2 := isInfix_map Char.toLower h
    rwa [e2] at h2
  · rw [decide_eq_true_eq] at h
    refine Or.inr ?_
    rw [decide_eq_true_eq]
    have h2 := isInfix_map Char.toLower h
    rwa [e3] at h2

/-- Witness for the amended C7 at a concrete streaming content type. -/
theorem streaming_classification_case_sensitive_witness :
    is_streaming_content_type "text/event-stream" = true ∧
    is_streaming_content_type_spec "text/event-stream" = true :=
  ⟨by decide, streaming_classification_case_sensitive "text/event-stream" (by decide)⟩

-- ---------------------------------------------------------------------------
-- C3: body truncation limits are not enforced (code bug)
-- ---------------------------------------------------------------------------

/-- C3: `truncate_body` ignores its `_max_len` argument, so a logged body can
exceed the documented 8000-byte limit: an 8001-byte request body is stored
whole. -/
theorem truncate_body_exceeds_limit :
    truncate_body (List.replicate 8001 97) 8000 = some (List.replicate 8001 97) ∧
    8000 < (List.replicate 8001 97).length := by
  have hne : (List.replicate 8001 (97 : Nat)).isEmpty = false := by
    show (List.replicate (8000 + 1) (97 : Nat)).isEmpty = false
    rw [List.replicate_succ]
    rfl
  constructor
  · unfold truncate_body
    rw [hne]
    rfl
  · rw [List.length_replicate]
    omega

-- ---------------------------------------------------------------------------
-- C8: build_upstream_url versus trailing-slash trimming
-- ---------------------------------------------------------------------------

/-- A list ending in `'/'` splits off that slash. -/
theorem exists_append_slash_of_getLast (l : List Char) (h : l.getLast? = some '/') :
    ∃ d, l = d ++ ['/'] := by
  cases hr : l.reverse with
  | nil =>
    rw [← List.head?_reverse, hr] at h
    simp at h
  | cons c t =>
    have h2 := List.head?_reverse l
    rw [hr, h] at h2
    have hc : c = '/' := by simpa using h2
    refine ⟨t.reverse, ?_⟩
    have hb : l = l.reverse.reverse := (List.reverse_reverse l).symm
    rw [hb, hr, hc]
    simp

/-- `trim_end_matches('/')` is the identity on lists not ending in `'/'`. -/
theorem trim_end_matches_slash_of_getLast_ne (l : List Char)
    (h : l.getLast? ≠ some '/') : trim_end_matches_slash l = l := by
  unfold trim_end_matches_slash
  cases hr : l.reverse with
  | nil =>
    have hl : l = [] := by simpa using congrArg List.reverse hr
    rw [hl]
    rfl
  | cons c t =>
    have hc : c ≠ '/' := by
      intro hceq
      apply h
      rw [← List.head?_reverse, hr, hceq]
      rfl
    rw [List.dropWhile_cons, if_neg (by simp [hc]), ← hr, List.reverse_reverse]

/-- `trim_end_matches('/')` swallows a trailing slash. -/
theorem trim_end_matches_slash_append_slash (l : List Char) :
    trim_end_matches_slash (l ++ ['/']) = trim_end_matches_slash l := by
  unfold trim_end_matches_slash
  rw [List.reverse_append]
  simp [List.dropWhile_cons]

/-- `build_upstream_url(base, "/")` on a base not ending in `'/'` just
appends. -/
theorem build_upstream_url_root_of_ne (l : List Char) (h : l.getLast? ≠ some '/') :
    build_upstream_url l "/".data = l ++ "/".data := by
  have hd : "/".data = ['/'] := by decide
  simp only [build_upstream_url, hd]
  simp [h]

/-- `build_upstream_url(base, "/")` on a base ending in `'/'` drops exactly
one trailing slash before appending. -/
theorem build_upstream_url_root_of_slash (l : List Char) (h : l.getLast? = some '/') :
    build_upstream_url l "/".data = l.dropLast ++ "/".data := by
  have hd : "/".data = ['/'] := by decide
  simp only [build_upstream_url, hd]
  simp [h]

/-- Counterexample to C8: for `base = "//"` (two trailing slashes — which
config normalization would have removed, but the claim quantifies over every
base string) the two sides differ: `build_upstream_url("//", "/") = "//"`
while `build_upstream_url(trim_trailing_slash("//"), "/") = "/"`. -/
theorem build_upstream_url_trim_counterexample :
    build_upstream_url "//".data "/".data ≠
      build_upstream_url (trim_end_matches_slash "//".data) "/".data := by decide

/-- C8 (amended): for every base with at most one trailing `'/'` (every base
not ending in `"//"` — in particular every config-normalized base),
`build_upstream_url(base, "/")` equals
`build_upstream_url(trim_trailing_slash(base), "/")`. -/
theorem build_upstream_url_root_trim (base : List Char)
    (h : ¬ ['/', '/'] <:+ base) :
    build_upstream_url base "/".data =
      build_upstream_url (trim_end_matches_slash base) "/".data := by
  by_cases hl : base.getLast? = some '/'
  · obtain ⟨d, rfl⟩ := exists_append_slash_of_getLast base hl
    have hdl : d.getLast? ≠ some '/' := by
      intro hd2
      obtain ⟨d2, rfl⟩ := exists_append_slash_of_getLast d hd2
      exact h ⟨d2, by simp⟩
    rw [trim_end_matches_slash_append_slash, trim_end_matches_slash_of_getLast_ne d hdl,
      build_upstream_url_root_of_ne d hdl,
      build_upstream_url_root_of_slash (d ++ ['/']) (by simp),
      List.dropLast_concat]
  · rw [trim_end_matches_slash_of_getLast_ne base hl]

/-- Witness for the amended C8 at `base = "http://a/"`. -/
theorem build_upstream_url_root_trim_witness :
    (¬ ['/', '/'] <:+ "http://a/".data) ∧
    build_upstream_url "http://a/".data "/".data =
      build_upstream_url (trim_end_matches_slash "http://a/".data) "/".data :=
  ⟨by decide, build_upstream_url_root_trim "http://a/".data (by decide)⟩

-- ---------------------------------------------------------------------------
-- C6: log ring upsert semantics
-- ---------------------------------------------------------------------------

/-- A single upsert keeps the ring within the 200-entry bound. -/
theorem upsert_log_length_le (logs : List ProxyLogEntry) (entry : ProxyLogEntry)
    (h : logs.length ≤ MAX_LOGS) : (upsert_log logs entry).length ≤ MAX_LOGS := by
  unfold upsert_log
  cases hf : logs.findIdx? (fun e => e.id == entry.id) with
  | some pos =>
    rw [List.length_set]
    exact h
  | none =>
    simp only
    split
    · rw [List.length_tail, List.length_append]
      simp
      omega
    · rename_i hle
      rw [List.length_append] at hle ⊢
      omega

/-- Any sequence of upserts starting from a ring within the bound stays
within the bound. -/
theorem foldl_upsert_log_length_le (ops : List ProxyLogEntry) :
    ∀ logs : List ProxyLogEntry, logs.length ≤ MAX_LOGS →
      (ops.foldl upsert_log logs).length ≤ MAX_LOGS := by
  induction ops with
  | nil => intro logs h; exact h
  | cons e rest ih =>
    intro logs h
    exact ih (upsert_log logs e) (upsert_log_length_le logs e h)

/-- C6: the log ring never exceeds 200 entries over any upsert sequence;
upserting an existing id replaces that entry in place (at its first position,
size unchanged); upserting a new id appends at the tail and drops the head
exactly when the size would exceed 200. -/
theorem upsert_log_ring_spec :
    (∀ ops : List ProxyLogEntry, (ops.foldl upsert_log []).length ≤ MAX_LOGS) ∧
    (∀ (logs : List ProxyLogEntry) (entry : ProxyLogEntry) (pos : Nat),
      logs.findIdx? (fun e => e.id == entry.id) = some pos →
      upsert_log logs entry = logs.set pos entry ∧
        (upsert_log logs entry).length = logs.length) ∧
    (∀ (logs : List ProxyLogEntry) (entry : ProxyLogEntry),
      logs.findIdx? (fun e => e.id == entry.id) = none →
      upsert_log logs entry =
        if logs.length + 1 > MAX_LOGS then (logs ++ [entry]).tail
        else logs ++ [entry]) := by
  refine ⟨?_, ?_, ?_⟩
  · intro ops
    exact foldl_upsert_log_length_le ops [] (by simp [MAX_LOGS])
  · intro logs entry pos hf
    unfold upsert_log
    rw [hf]
    exact ⟨rfl, List.length_set logs pos entry⟩
  · intro logs entry hf
    unfold upsert_log
    rw [hf]
    simp only [List.length_append, List.length_singleton]

/-- Witness for C6 at concrete one- and two-entry rings. -/
theorem upsert_log_ring_spec_witness :
    upsert_log
      [⟨"a", "", "", "", "", 0, none, none, none, none, none, 0, none, none,
        none, none, none, none, none, false⟩]
      ⟨"a", "", "", "", "", 0, none, none, none, none, none, 0, none, none,
        none, none, none, none, none, true⟩ =
      [⟨"a", "", "", "", "", 0, none, none, none, none, none, 0, none, none,
        none, none, none, none, none, true⟩] ∧
    upsert_log
      [⟨"a", "", "", "", "", 0, none, none, none, none, none, 0, none, none,
        none, none, none, none, none, false⟩]
      ⟨"b", "", "", "", "", 0, none, none, none, none, none, 0, none, none,
        none, none, none, none, none, false⟩ =
      [⟨"a", "", "", "", "", 0, none, none, none, none, none, 0, none, none,
        none, none, none, none, none, false⟩,
       ⟨"b", "", "", "", "", 0, none, none, none, none, none, 0, none, none,
        none, none, none, none, none, false⟩] := by
  constructor
  · have h1 := (upsert_log_ring_spec.2.1
      [⟨"a", "", "", "", "", 0, none, none, none, none, none, 0, none, none,
        none, none, none, none, none, false⟩]
      ⟨"a", "", "", "", "", 0, none, none, none, none, none, 0, none, none,
        none, none, none, none, none, true⟩ 0 (by decide)).1
    rw [h1]
    decide
  · have h2 := upsert_log_ring_spec.2.2
      [⟨"a", "", "", "", "", 0, none, none, none, none, none, 0, none, none,
        none, none, none, none, none, false⟩]
      ⟨"b", "", "", "", "", 0, none, none, none, none, none, 0, none, none,
        none, none, none, none, none, false⟩ (by decide)
    rw [h2]
    decide

-- ---------------------------------------------------------------------------
-- C9: longest-prefix selection is stable (earliest equal-length wins)
-- ---------------------------------------------------------------------------

/-- Stable descending insertion adds one element. -/
theorem insert_desc_length {α : Type} (key : α → Nat) (a : α) (l : List α) :
    (insert_desc key a l).length = l.length + 1 := by
  induction l with
  | nil => rfl
  | cons y ys ih =>
    unfold insert_desc
    split
    · rfl
    · simpa using ih

/-- Stable descending sort preserves length. -/
theorem sort_desc_length {α : Type} (key : α → Nat) (l : List α) :
    (sort_desc key l).length = l.length := by
  induction l with
  | nil => rfl
  | cons a l ih =>
    unfold sort_desc
    rw [insert_desc_length, ih]
    rfl

/-- `first_max` returns an element of the list. -/
theorem first_max_mem {α : Type} (key : α → Nat) (l : List α) (b : α)
    (h : first_max key l = some b) : b ∈ l := by
  induction l with
  | nil => simp [first_max] at h
  | cons a l ih =>
    cases hf : first_max key l with
    | none =>
      have he : first_max key (a :: l) = some a := by rw [first_max, hf]
      rw [he] at h
      simp only [Option.some.injEq] at h
      rw [← h]
      exact List.mem_cons_self a l
    | some c =>
      by_cases hk : key a < key c
      · have he : first_max key (a :: l) = some c := by
          rw [first_max, hf]
          exact if_pos hk
        rw [he] at h
        simp only [Option.some.injEq] at h
        rw [h] at hf
        exact List.mem_cons_of_mem a (ih hf)
      · have he : first_max key (a :: l) = some a := by
          rw [first_max, hf]
          exact if_neg hk
        rw [he] at h
        simp only [Option.some.injEq] at h
        rw [← h]
        exact List.mem_cons_self a l

/-- The head of the stable descending sort is the earliest maximum. -/
theorem sort_desc_head {α : Type} (key : α → Nat) (l : List α) :
    (sort_desc key l).head? = first_max key l := by
  induction l with
  | nil => rfl
  | cons a l ih =>
    show (insert_desc key a (sort_desc key l)).head? = first_max key (a :: l)
    cases hs : sort_desc key l with
    | nil =>
      have hl : l = [] := by
        have hlen := sort_desc_length key l
        rw [hs] at hlen
        exact List.length_eq_zero.mp hlen.symm
      rw [hl]
      rfl
    | cons y ys =>
      rw [hs] at ih
      simp only [List.head?_cons] at ih
      unfold insert_desc
      by_cases hk : key y ≤ key a
      · rw [if_pos hk]
        simp only [List.head?_cons]
        rw [first_max, ← ih]
        show some a = if key a < key y then some y else some a
        rw [if_neg (by omega)]
      · rw [if_neg hk]
        simp only [List.head?_cons]
        rw [first_max, ← ih]
        show some y = if key a < key y then some y else some a
        rw [if_pos (by omega)]

/-- `first_max` is exactly the earliest element of maximal key. -/
theorem first_max_earliest {α : Type} (key : α → Nat) (l : List α) (i : Nat) (s : α)
    (hget : l[i]? = some s)
    (hmax : ∀ t ∈ l, key t ≤ key s)
    (hbefore : ∀ j t, j < i → l[j]? = some t → key t < key s) :
    first_max key l = some s := by
  induction l generalizing i with
  | nil => simp at hget
  | cons a l ih =>
    cases i with
    | zero =>
      simp only [List.getElem?_cons_zero, Option.some.injEq] at hget
      rcases hget with rfl
      cases hf : first_max key l with
      | none => rw [first_max, hf]
      | some b =>
        have hb : b ∈ l := first_max_mem key l b hf
        have hba : key b ≤ key a := hmax b (List.mem_cons_of_mem a hb)
        rw [first_max, hf]
        exact if_neg (by omega)
    | succ i' =>
      have hget' : l[i']? = some s := by simpa using hget
      have ha : key a < key s := hbefore 0 a (Nat.succ_pos i') (by simp)
      have hmax' : ∀ t ∈ l, key t ≤ key s := fun t ht =>
        hmax t (List.mem_cons_of_mem a ht)
      have hbefore' : ∀ j t, j < i' → l[j]? = some t → key t < key s := by
        intro j t hj hjt
        exact hbefore (j + 1) t (by omega) (by simpa using hjt)
      have hfm := ih i' hget' hmax' hbefore'
      rw [first_max, hfm]
      show (if key a < key s then some s else some a) = some s
      rw [if_pos ha]

/-- C9: when several enabled services match the request path,
`select_service` deterministically returns the earliest candidate of maximal
`base_path` length — in particular, with two equal-length maximal matches the
one appearing first in the configured sequence wins, because the
descending-length sort is stable. -/
theorem select_service_picks_earliest_longest (config : ProxyConfig) (path : String)
    (i : Nat) (s : ServiceConfig)
    (hget : (candidate_services config path)[i]? = some s)
    (hmax : ∀ t ∈ candidate_services config path,
      t.base_path.data.length ≤ s.base_path.data.length)
    (hbefore : ∀ j t, j < i → (candidate_services config path)[j]? = some t →
      t.base_path.data.length < s.base_path.data.length) :
    select_service config path = some s := by
  have hmem : s ∈ candidate_services config path :=
    List.mem_iff_getElem?.mpr ⟨i, hget⟩
  have hmem2 : s ∈ config.services.filter (·.enabled) := by
    unfold candidate_services at hmem
    exact (List.mem_filter.mp hmem).1
  have henabled : ¬ ((config.services.filter (·.enabled)).isEmpty = true) := by
    intro hemp
    rw [List.isEmpty_iff] at hemp
    rw [hemp] at hmem2
    simp at hmem2
  simp only [select_service]
  rw [if_neg henabled, sort_desc_head]
  exact first_max_earliest _ _ i s hget hmax hbefore

/-- Witness for C9: two enabled services with the equal-length base path
`/a`; the request `/a/x` matches both and the first configured service is
selected. -/
theorem select_service_picks_earliest_longest_witness :
    select_service equal_prefix_config "/a/x" = equal_prefix_config.services[0]? := by
  have h := select_service_picks_earliest_longest equal_prefix_config "/a/x" 0
    ⟨"s1", "first", "/a", true,
      [⟨"u1", none, "http://one", none, 0, true⟩]⟩
    (by decide) (by decide)
    (by intro j t hj _; exact absurd hj (Nat.not_lt_zero j))
  rw [h]
  decide

-- ---------------------------------------------------------------------------
-- C4: log header dumps versus sensitive headers
-- ---------------------------------------------------------------------------

/-- Counterexample to C4: the `request_headers` dump is the rendered outbound
header set from `prepare_upstream_request`, and that set *contains* the
`authorization` header (here the injected upstream credential), so the dump
does not omit `Authorization`. -/
theorem request_headers_contain_authorization :
    prepare_upstream_headers [("authorization", "Bearer clientkey")] (some "serverkey") =
      [("authorization", "Bearer serverkey")] ∧
    ("authorization", "Bearer serverkey") ∈
      prepare_upstream_headers [("authorization", "Bearer clientkey")] (some "serverkey") ∧
    containsSub
      (prepare_upstream_headers_str [("authorization", "Bearer clientkey")]
        (some "serverkey"))
      "authorization" = true := by decide

/-- C4 (amended): the `response_headers` dump (`format_headers`) omits both
`Authorization` and `x-proxy-key`; the `request_headers` dump
(`prepare_upstream_request`) omits `x-proxy-key` but *includes* the outbound
`Authorization` credential when one is emitted. -/
theorem log_header_filtering_amended :
    (∀ headers : List (String × String), ∀ p ∈ format_header_pairs headers,
      ¬ lowerData p.1 = "authorization".data ∧ ¬ lowerData p.1 = "x-proxy-key".data) ∧
    (∀ (headers : List (String × String)) (api_key : Option String),
      ∀ p ∈ prepare_upstream_headers headers api_key,
        ¬ lowerData p.1 = "x-proxy-key".data) ∧
    (∀ (headers : List (String × String)) (key : String),
      uses_goog_api_key headers = false →
      ("authorization", "Bearer " ++ key) ∈ prepare_upstream_headers headers (some key)) := by
  refine ⟨?_, ?_, ?_⟩
  · intro headers p hp
    exact of_decide_eq_true (List.mem_filter.mp hp).2
  · intro headers api_key p hp
    unfold prepare_upstream_headers at hp
    rcases List.mem_append.mp hp with hF | hI
    · exact (of_decide_eq_true (List.mem_filter.mp hF).2).2.2.2.2
    · cases api_key with
      | some key =>
        by_cases hg : uses_goog_api_key headers = true
        · simp only [hg, if_true] at hI
          simp only [List.mem_singleton] at hI
          rw [hI]
          show ¬ lowerData "x-goog-api-key" = "x-proxy-key".data
          decide
        · simp only [hg, if_false, Bool.false_eq_true] at hI
          simp only [List.mem_singleton] at hI
          rw [hI]
          show ¬ lowerData "authorization" = "x-proxy-key".data
          decide
      | none =>
        cases hcg : captured_goog headers with
        | none =>
          cases hca : captured_auth headers with
          | none =>
            rw [hcg, hca] at hI
            simp at hI
          | some v =>
            rw [hcg, hca] at hI
            simp at hI
            rw [hI]
            show ¬ lowerData "authorization" = "x-proxy-key".data
            decide
        | some v =>
          cases hca : captured_auth headers with
          | none =>
            rw [hcg, hca] at hI
            simp at hI
            rw [hI]
            show ¬ lowerData "x-goog-api-key" = "x-proxy-key".data
            decide
          | some w =>
            rw [hcg, hca] at hI
            simp at hI
            rcases hI with rfl | rfl
            · show ¬ lowerData "x-goog-api-key" = "x-proxy-key".data
              decide
            · show ¬ lowerData "authorization" = "x-proxy-key".data
              decide
  · intro headers key hg
    unfold prepare_upstream_headers
    simp [hg]

/-- Witness for the amended C4 at concrete headers. -/
theorem log_header_filtering_amended_witness :
    (¬ lowerData ("content-type", "json").1 = "authorization".data ∧
     ¬ lowerData ("content-type", "json").1 = "x-proxy-key".data) ∧
    (¬ lowerData ("authorization", "Bearer k").1 = "x-proxy-key".data) ∧
    ("authorization", "Bearer k") ∈ prepare_upstream_headers [] (some "k") := by
  refine ⟨?_, ?_, ?_⟩
  · exact log_header_filtering_amended.1
      [("content-type", "json"), ("authorization", "secret")] _ (by decide)
  · exact log_header_filtering_amended.2.1 [] (some "k") _ (by decide)
  · exact log_header_filtering_amended.2.2 [] "k" (by decide)

-- ---------------------------------------------------------------------------
-- C1: a retryable status with no attempt left commits — no fallback
-- ---------------------------------------------------------------------------

/-- Counterexample to C1: with `fallback_retries = 1`, two enabled upstreams,
the first answering HTTP 500 and the second HTTP 200, the client does *not*
receive 200 — the engine commits the 500 (status-based fallback across
upstreams never happens; only transport errors fall back). -/
theorem fallback_scenario_counterexample :
    fallback_scenario_run.1 = 500 ∧ fallback_scenario_run.1 ≠ 200 := by decide

/-- C1 (amended): in the same scenario the code commits the first upstream's
500 as the final outcome: the client receives 500, the main log entry has no
`retry_action`, and the stats map records exactly one error increment for the
first upstream and nothing for the second. -/
theorem fallback_scenario_amended :
    fallback_scenario_run.1 = 500 ∧
    (final_main_entry "req" fallback_scenario_run.2).map
      (fun e => (e.status, e.retry_action)) = some (some 500, none) ∧
    apply_stats_events fallback_scenario_run.2 =
      [("A", ⟨"A", none, 1, 0, 1, 0⟩)] := by decide

-- ---------------------------------------------------------------------------
-- C2: retry then success on a single upstream
-- ---------------------------------------------------------------------------

/-- C2: with `fallback_retries = 2` and one upstream answering 503 then 200,
the client receives 200, and replaying the log upserts leaves the ring with
the main entry (status 200, `retry_action = "retry"`) and one sub-entry
`req-1-1` (status 503, `retry_action = "retry"`). -/
theorem retry_scenario_confirmed :
    retry_scenario_run.1 = 200 ∧
    (apply_log_events retry_scenario_run.2).map
      (fun e => (e.id, e.status, e.retry_action)) =
      [("req", some 200, some "retry"), ("req-1-1", some 503, some "retry")] := by decide

-- ---------------------------------------------------------------------------
-- C5: stats accounting per dispatched attempt
-- ---------------------------------------------------------------------------

/-- Counterexample to C5: a final outcome whose buffered response body fails
to read increments *no* upstream's counters: one attempt is dispatched (one
in-flight upsert) but the trace carries zero stats updates. -/
theorem read_failure_scenario_counterexample :
    read_failure_scenario_run.1 = 502 ∧
    read_failure_scenario_run.2.countP is_inflight_upsert = 1 ∧
    read_failure_scenario_run.2.countP is_stats_event = 0 ∧
    read_failure_scenario_run.2.countP is_stats_event ≠
      read_failure_scenario_run.2.countP is_inflight_upsert := by decide

/-- `Option` boolean equality on `none`/`some`. -/
theorem none_beq_some (m : String) : ((none : Option String) == some m) = false := rfl

/-- `Option` boolean equality on `some`/`some`. -/
theorem some_beq_some (a b : String) : ((some a : Option String) == some b) = (a == b) := rfl

/-- A derived attempt id `"{id}-{u}-{a}"` never equals the main id. -/
theorem sub_id_beq_main (s a b : String) :
    ((s ++ "-" ++ a ++ "-" ++ b) == s) = false := by
  rw [beq_eq_false_iff_ne]
  intro h
  have hd := congrArg (fun x => x.data.length) h
  simp only [String.data_append, List.length_append] at hd
  have hdash : ("-" : String).data.length = 1 := by decide
  rw [hdash] at hd
  omega

/-- A string starting with a character `c` differs from any string not
starting with `c`. -/
theorem append_ne_of_head (pre s t : String) (c : Char)
    (hpre : pre.data.head? = some c) (ht : t.data.head? ≠ some c) :
    pre ++ s ≠ t := by
  intro h
  have hd := congrArg String.data h
  rw [String.data_append] at hd
  apply ht
  rw [← hd]
  cases hp : pre.data with
  | nil => rw [hp] at hpre; simp at hpre
  | cons x xs =>
    rw [hp] at hpre
    simp only [List.head?_cons, Option.some.injEq] at hpre
    simp [hpre]

/-- The buffered-error text never equals the body-read-failure text. -/
theorem upstream_error_ne_read_failure (s : String) :
    ("上游返回 " ++ s) ≠ "读取上游响应失败" :=
  append_ne_of_head "上游返回 " s "读取上游响应失败" '上' (by decide) (by decide)

/-- The exhaustion error text never equals the body-read-failure text. -/
theorem exhaustion_error_ne_read_failure (s : String) :
    ("上游请求失败: " ++ s) ≠ "读取上游响应失败" :=
  append_ne_of_head "上游请求失败: " s "读取上游响应失败" '上' (by decide) (by decide)

/-- The response handler books exactly one stats-or-read-failure credit per
committed outcome and never emits an in-flight upsert. -/
theorem handle_upstream_response_stats_balance
    (entry : ProxyLogEntry) (status : Nat) (resp_headers : List (String × String))
    (buffered_read : Option (List Nat)) (stream_chunks : List (List Nat))
    (upstream_id : String) (upstream_label : Option String) (events : List ProxyEvent)
    (id0 : String) (hid : entry.id = id0) (herr : entry.error = none) :
    ((handle_upstream_response entry status resp_headers buffered_read stream_chunks
        upstream_id upstream_label events).2.countP is_stats_event +
      (handle_upstream_response entry status resp_headers buffered_read stream_chunks
        upstream_id upstream_label events).2.countP (is_read_failure_upsert id0) =
      events.countP is_stats_event + events.countP (is_read_failure_upsert id0) + 1) ∧
    (handle_upstream_response entry status resp_headers buffered_read stream_chunks
        upstream_id upstream_label events).2.countP is_inflight_upsert =
      events.countP is_inflight_upsert := by
  simp only [handle_upstream_response, handle_streaming_body, handle_regular_body]
  split
  · -- streaming path: one final upsert (committed status) plus one stats update
    refine ⟨?_, ?_⟩
    · simp [List.countP_append, List.countP_cons, is_stats_event,
        is_read_failure_upsert, herr, none_beq_some]
      omega
    · simp [List.countP_append, List.countP_cons, is_inflight_upsert]
  · -- buffered path
    split
    · -- body read failure: the single upsert is the read-failure credit
      refine ⟨?_, ?_⟩
      · simp [List.countP_append, List.countP_cons, is_stats_event,
          is_read_failure_upsert, hid, some_beq_some]
        omega
      · simp [List.countP_append, List.countP_cons, is_inflight_upsert]
    · -- normal buffered outcome: stats update plus final upsert
      by_cases h400 : 400 ≤ status ∧ status ≤ 599
      · refine ⟨?_, ?_⟩
        · simp [List.countP_append, List.countP_cons, is_stats_event,
            is_read_failure_upsert, h400, some_beq_some, ne_eq,
            upstream_error_ne_read_failure]
          omega
        · simp [List.countP_append, List.countP_cons, is_inflight_upsert, h400]
      · refine ⟨?_, ?_⟩
        · simp [List.countP_append, List.countP_cons, is_stats_event,
            is_read_failure_upsert, h400, herr, none_beq_some]
          omega
        · simp [List.countP_append, List.countP_cons, is_inflight_upsert, h400]

/-- Commit-shape corollary of the handler balance lemma. -/
theorem handle_upstream_response_balanced
    (entry : ProxyLogEntry) (status : Nat) (resp_headers : List (String × String))
    (buffered_read : Option (List Nat)) (stream_chunks : List (List Nat))
    (upstream_id : String) (upstream_label : Option String) (events : List ProxyEvent)
    (id0 : String) (hid : entry.id = id0) (herr : entry.error = none)
    (hbal : events.countP is_stats_event + events.countP (is_read_failure_upsert id0) + 1 =
      events.countP is_inflight_upsert) :
    (handle_upstream_response entry status resp_headers buffered_read stream_chunks
        upstream_id upstream_label events).2.countP is_stats_event +
      (handle_upstream_response entry status resp_headers buffered_read stream_chunks
        upstream_id upstream_label events).2.countP (is_read_failure_upsert id0) =
      (handle_upstream_response entry status resp_headers buffered_read stream_chunks
        upstream_id upstream_label events).2.countP is_inflight_upsert := by
  obtain ⟨h1, h2⟩ := handle_upstream_response_stats_balance entry status resp_headers
    buffered_read stream_chunks upstream_id upstream_label events id0 hid herr
  omega

/-- Per-attempt stats/read-failure accounting through the inner attempt
loop: every dispatched attempt contributes exactly one in-flight upsert and
exactly one stats update or read-failure upsert. -/
theorem engine_attempts_stats_balance
    (oracle : Nat → Nat → DispatchOutcome) (headers : List (String × String))
    (rpu : Nat) (allow_fallback : Bool) (up_idx : Nat) (u : ResolvedUpstream)
    (rest_len : Nat) (id0 : String) (attempts : List Nat) :
    ∀ (entry : ProxyLogEntry) (errs : List String) (events : List ProxyEvent),
      entry.id = id0 → entry.status = none → entry.error = none →
      events.countP is_stats_event + events.countP (is_read_failure_upsert id0) =
        events.countP is_inflight_upsert →
      (match engine_attempts oracle headers rpu allow_fallback up_idx u rest_len
          attempts entry errs events with
       | .inl (_, events') =>
          events'.countP is_stats_event + events'.countP (is_read_failure_upsert id0) =
            events'.countP is_inflight_upsert
       | .inr (entry', _, events') =>
          (events'.countP is_stats_event + events'.countP (is_read_failure_upsert id0) =
            events'.countP is_inflight_upsert) ∧
          entry'.id = id0 ∧ entry'.status = none ∧ entry'.error = none) := by
  induction attempts with
  | nil =>
    intro entry errs events hid hst herr hbal
    exact ⟨hbal, hid, hst, herr⟩
  | cons attempt more ih =>
    intro entry errs events hid hst herr hbal
    cases ho : oracle up_idx attempt with
    | resp status resp_headers buffered_read stream_chunks =>
      simp only [engine_attempts, ho]
      by_cases hr : should_retry_status status = true ∧ attempt < rpu
      · rw [if_pos hr]
        apply ih
        · simp [hid]
        · simp [hst]
        · simp [herr]
        · simp [List.countP_append, List.countP_cons, is_stats_event,
            is_read_failure_upsert, is_inflight_upsert, hid, hst, herr,
            sub_id_beq_main, none_beq_some]
          omega
      · rw [if_neg hr]
        apply handle_upstream_response_balanced
        · split_ifs <;> simp [hid]
        · split_ifs <;> simp [herr]
        · simp [List.countP_append, List.countP_cons, is_stats_event,
            is_read_failure_upsert, is_inflight_upsert, hid, hst, herr,
            none_beq_some]
          omega
    | transport_error msg =>
      simp only [engine_attempts, ho]
      by_cases hr2 : attempt < rpu
      · rw [if_pos hr2]
        apply ih
        · simp [hid]
        · simp [hst]
        · simp [herr]
        · simp [List.countP_append, List.countP_cons, is_stats_event,
            is_read_failure_upsert, is_inflight_upsert, hid, hst, herr,
            sub_id_beq_main, none_beq_some]
          omega
      · rw [if_neg hr2]
        by_cases hn : allow_fallback = true ∧ 0 < rest_len
        · rw [if_pos hn]
          refine ⟨?_, by simp [hid], by simp [hst], by simp [herr]⟩
          simp [List.countP_append, List.countP_cons, is_stats_event,
            is_read_failure_upsert, is_inflight_upsert, hid, hst, herr,
            sub_id_beq_main, none_beq_some]
          omega
        · rw [if_neg hn]
          simp only []
          simp [List.countP_append, List.countP_cons, is_stats_event,
            is_read_failure_upsert, is_inflight_upsert, hid, hst, herr,
            sub_id_beq_main, none_beq_some, ne_eq,
            exhaustion_error_ne_read_failure, some_beq_some]
          omega

/-- Stats/read-failure accounting through the outer upstream loop. -/
theorem engine_upstreams_stats_balance
    (oracle : Nat → Nat → DispatchOutcome) (headers : List (String × String))
    (rpu : Nat) (allow_fallback : Bool) (id0 : String) (ups : List ResolvedUpstream) :
    ∀ (up_idx : Nat) (entry : ProxyLogEntry) (errs : List String)
      (events : List ProxyEvent),
      entry.id = id0 → entry.status = none → entry.error = none →
      events.countP is_stats_event + events.countP (is_read_failure_upsert id0) =
        events.countP is_inflight_upsert →
      (engine_upstreams oracle headers rpu allow_fallback ups up_idx entry errs
          events).2.countP is_stats_event +
        (engine_upstreams oracle headers rpu allow_fallback ups up_idx entry errs
          events).2.countP (is_read_failure_upsert id0) =
        (engine_upstreams oracle headers rpu allow_fallback ups up_idx entry errs
          events).2.countP is_inflight_upsert := by
  induction ups with
  | nil =>
    intro up_idx entry errs events hid hst herr hbal
    simpa [engine_upstreams] using hbal
  | cons u rest ih =>
    intro up_idx entry errs events hid hst herr hbal
    simp only [engine_upstreams]
    have hh := engine_attempts_stats_balance oracle headers rpu allow_fallback up_idx u
      rest.length id0 (List.range (rpu + 1)) entry errs events hid hst herr hbal
    cases hea : engine_attempts oracle headers rpu allow_fallback up_idx u rest.length
        (List.range (rpu + 1)) entry errs events with
    | inl result =>
      obtain ⟨st, evs⟩ := result
      rw [hea] at hh
      exact hh
    | inr cont =>
      obtain ⟨entry', errs', events'⟩ := cont
      rw [hea] at hh
      exact ih (up_idx + 1) entry' errs' events' hh.2.1 hh.2.2.1 hh.2.2.2 hh.1

/-- C5 (amended): over every oracle, header set, retry budget, upstream list
and admission entry, every dispatched attempt (counted by its in-flight
upsert) is matched by exactly one stats update — except a final outcome whose
buffered response body fails to read, which produces its distinctive
read-failure upsert and *no* stats update.  Equivalently, stats updates plus
read-failure upserts equal attempts dispatched. -/
theorem stats_accounting_per_attempt (oracle : Nat → Nat → DispatchOutcome)
    (headers : List (String × String)) (fallback_retries : Nat)
    (upstreams : List ResolvedUpstream) (entry : ProxyLogEntry)
    (hst : entry.status = none) (herr : entry.error = none) :
    (run_attempt_engine oracle headers fallback_retries upstreams entry).2.countP
        is_stats_event +
      (run_attempt_engine oracle headers fallback_retries upstreams entry).2.countP
        (is_read_failure_upsert entry.id) =
      (run_attempt_engine oracle headers fallback_retries upstreams entry).2.countP
        is_inflight_upsert := by
  unfold run_attempt_engine
  exact engine_upstreams_stats_balance oracle headers _ _ entry.id upstreams 0 entry [] []
    rfl hst herr (by simp)

/-- Witness for the amended C5 at the concrete read-failure dispatch. -/
theorem stats_accounting_per_attempt_witness :
    (run_attempt_engine body_read_fails [] 0 [⟨"http://a/x", "A", none, none⟩]
        ⟨"req", "", "POST", "/x", "", 0, none, none, none, none, none, 0, none, none,
          none, none, none, none, none, false⟩).2.countP is_stats_event +
      (run_attempt_engine body_read_fails [] 0 [⟨"http://a/x", "A", none, none⟩]
        ⟨"req", "", "POST", "/x", "", 0, none, none, none, none, none, 0, none, none,
          none, none, none, none, none, false⟩).2.countP (is_read_failure_upsert "req") =
      (run_attempt_engine body_read_fails [] 0 [⟨"http://a/x", "A", none, none⟩]
        ⟨"req", "", "POST", "/x", "", 0, none, none, none, none, none, 0, none, none,
          none, none, none, none, none, false⟩).2.countP is_inflight_upsert :=
  stats_accounting_per_attempt body_read_fails [] 0
    [⟨"http://a/x", "A", none, none⟩]
    ⟨"req", "", "POST", "/x", "", 0, none, none, none, none, none, 0, none, none,
      none, none, none, none, none, false⟩ rfl rfl
